import Mathlib

/-!
Verification of the conversation data contract in
`frontend/src/types.ts`: the `Role` union, the `ChatMessage` and
`UploadResponse` shapes, and the boundary-validation layer
(`validateChatMessage`, `validateUploadResponse`) that the specification
describes for these shapes.

TypeScript `number` is embedded as `Rat` (the values of interest — counts,
`-1`, `2.5` — are exact), string-literal unions as closed inductives, and
an untrusted structured input as a JSON-like value.
-/

/-- From `types.ts` line 1: `type Role = "user" | "bot" | "system"` — a closed
union of three string literals, embedded as an inductive with three
constructors. -/
inductive Role where
  | user
  | bot
  | system
deriving DecidableEq

/-- From `types.ts` line 6: the closed union of `ChatMessage.type` values,
`"apology" | "rule-answer" | "system"`. -/
inductive MsgType where
  | apology
  | ruleAnswer
  | system
deriving DecidableEq

/-- From `types.ts` lines 3–7: `interface ChatMessage { role: Role; content:
string; type?: ... }`. The optional field `type?` is embedded as `Option`. -/
structure ChatMessage where
  role : Role
  content : String
  type : Option MsgType
deriving DecidableEq

/-- From `types.ts` lines 9–12: `interface UploadResponse { message: string;
casesIndexed: number }`. The TypeScript `number` is embedded as `Rat`: the
raw declared type does not restrict the count to non-negative integers. -/
structure UploadResponse where
  message : String
  casesIndexed : Rat
deriving DecidableEq

/-- Modelled from the spec: the error taxonomy of the contract boundary
(§7), absent from `src/` — `InvalidRole`, `InvalidType`, `MissingContent`,
`MissingMessage`, `InvalidCount`. -/
inductive ValidationError where
  | InvalidRole
  | InvalidType
  | MissingContent
  | MissingMessage
  | InvalidCount
deriving DecidableEq

/-- An arbitrary structured value crossing the boundary (a JSON-like value
over a text-based wire format, spec §6): the type of inputs to the
validation operations. -/
inductive JsonValue where
  | str (s : String)
  | num (q : Rat)
  | bool (b : Bool)
  | null
  | arr (elems : List JsonValue)
  | obj (fields : List (String × JsonValue))

/-- First binding of a key in an object's field list. -/
def getField : List (String × JsonValue) → String → Option JsonValue
  | [], _ => none
  | (k, v) :: rest, key => if k = key then some v else getField rest key

/-- The fields of a structured value: a non-object has none. -/
def jsonFields : JsonValue → List (String × JsonValue)
  | .obj fs => fs
  | _ => []

/-- The string spellings of the `Role` literals in `types.ts` line 1. -/
def roleToString : Role → String
  | .user => "user"
  | .bot => "bot"
  | .system => "system"

/-- Recognize a string as one of the three `Role` literals. -/
def parseRole : String → Option Role
  | "user" => some .user
  | "bot" => some .bot
  | "system" => some .system
  | _ => none

/-- The string spellings of the `ChatMessage.type` literals in `types.ts`
line 6. -/
def msgTypeToString : MsgType → String
  | .apology => "apology"
  | .ruleAnswer => "rule-answer"
  | .system => "system"

/-- Recognize a string as one of the three `ChatMessage.type` literals. -/
def parseMsgType : String → Option MsgType
  | "apology" => some .apology
  | "rule-answer" => some .ruleAnswer
  | "system" => some .system
  | _ => none

/-- Modelled from the spec: the `role` constraint of `validateChatMessage`
(§4.1), absent from `src/` — `role` must be present and be exactly one of
the three allowed literal values. `none` when it is missing or invalid. -/
def roleField (input : JsonValue) : Option Role :=
  match getField (jsonFields input) "role" with
  | some (.str s) => parseRole s
  | _ => none

/-- Modelled from the spec: the `type` constraint of `validateChatMessage`
(§4.1), absent from `src/` — `type`, if present, must be one of the three
allowed literal values. `some none` when absent, `some (some t)` when
present and valid, `none` when present but invalid. -/
def typeField (input : JsonValue) : Option (Option MsgType) :=
  match getField (jsonFields input) "type" with
  | none => some none
  | some (.str s) =>
    match parseMsgType s with
    | some t => some (some t)
    | none => none
  | some _ => none

/-- Modelled from the spec: the `content` constraint of
`validateChatMessage` (§4.1), absent from `src/` — `content` must be
present and be text (the empty string is allowed). -/
def contentField (input : JsonValue) : Option String :=
  match getField (jsonFields input) "content" with
  | some (.str s) => some s
  | _ => none

/-- Modelled from the spec: `validateChatMessage(input) → ChatMessage |
ValidationError` (§4.1), absent from `src/`. Pure boundary validation:
fails with `InvalidRole` when `role` is missing or not in the closed set,
with `InvalidType` when `type` is present but not in its closed set, with
`MissingContent` when `content` is absent or not text; on success returns
a `ChatMessage` with exactly the recognized fields. Checks follow the
spec's listed order of error conditions (role, then type, then content). -/
def validateChatMessage (input : JsonValue) : Except ValidationError ChatMessage :=
  match roleField input with
  | none => .error .InvalidRole
  | some r =>
    match typeField input with
    | none => .error .InvalidType
    | some t =>
      match contentField input with
      | none => .error .MissingContent
      | some c => .ok ⟨r, c, t⟩

/-- Modelled from the spec: the `casesIndexed` constraint of
`validateUploadResponse` (§4.1), absent from `src/` — `casesIndexed` must
be an integer `>= 0`. `none` when it is missing, not a number, negative or
non-integral. -/
def countField (input : JsonValue) : Option Rat :=
  match getField (jsonFields input) "casesIndexed" with
  | some (.num q) => if q.den = 1 ∧ 0 ≤ q then some q else none
  | _ => none

/-- Modelled from the spec: the `message` constraint of
`validateUploadResponse` (§4.1), absent from `src/` — `message` must be
present and be text. -/
def messageField (input : JsonValue) : Option String :=
  match getField (jsonFields input) "message" with
  | some (.str s) => some s
  | _ => none

/-- Modelled from the spec: `validateUploadResponse(input) →
UploadResponse | ValidationError` (§4.1), absent from `src/`. Fails with
`InvalidCount` when `casesIndexed` is missing, negative or non-integral,
with `MissingMessage` when `message` is absent or not text; checks follow
the spec's listed order of error conditions (count, then message). -/
def validateUploadResponse (input : JsonValue) : Except ValidationError UploadResponse :=
  match countField input with
  | none => .error .InvalidCount
  | some q =>
    match messageField input with
    | none => .error .MissingMessage
    | some m => .ok ⟨m, q⟩

/-- The serialized form of a `ChatMessage` (spec §6): the `type` key is
written only when the classification is present. -/
def encodeChatMessage (m : ChatMessage) : JsonValue :=
  match m.type with
  | none => .obj [("role", .str (roleToString m.role)), ("content", .str m.content)]
  | some t =>
    .obj [("role", .str (roleToString m.role)), ("content", .str m.content),
      ("type", .str (msgTypeToString t))]

/-- The serialized form of an `UploadResponse` (spec §6). -/
def encodeUploadResponse (u : UploadResponse) : JsonValue :=
  .obj [("message", .str u.message), ("casesIndexed", .num u.casesIndexed)]

/-- The claim's condition for `InvalidRole`: `role` is missing or not one
of `user`/`bot`/`system`. -/
def badRole (input : JsonValue) : Bool :=
  (roleField input).isNone

/-- The claim's condition for `InvalidType`: `type` is present but not one
of `apology`/`rule-answer`/`system`. -/
def badType (input : JsonValue) : Bool :=
  (typeField input).isNone

/-- The claim's condition for `MissingContent`: `content` is absent or not
text. -/
def badContent (input : JsonValue) : Bool :=
  (contentField input).isNone

/-- The claim's condition for `InvalidCount`: `casesIndexed` is missing,
negative or non-integral. -/
def badCount (input : JsonValue) : Bool :=
  (countField input).isNone

/-- The claim's condition for `MissingMessage`: `message` is absent or not
text. -/
def badMessage (input : JsonValue) : Bool :=
  (messageField input).isNone

/-- Scenario of spec §8: `{role:"user", content:"hello"}` succeeds with
`type` absent in the output. -/
theorem scenario_user_hello :
    validateChatMessage (.obj [("role", .str "user"), ("content", .str "hello")]) =
      .ok ⟨.user, "hello", none⟩ := rfl

/-- Scenario of spec §8: an input missing `role` fails with `InvalidRole`. -/
theorem scenario_empty_object :
    validateChatMessage (.obj []) = .error .InvalidRole := rfl

/-- Scenario of spec §8: `{role:"bot", content:"Sorry, I do not know.",
type:"apology"}` succeeds. -/
theorem scenario_bot_apology :
    validateChatMessage (.obj [("role", .str "bot"),
      ("content", .str "Sorry, I do not know."), ("type", .str "apology")]) =
      .ok ⟨.bot, "Sorry, I do not know.", some .apology⟩ := rfl

/-- Scenario of spec §8: `{message:"No cases found.", casesIndexed:-1}`
fails with `InvalidCount`. -/
theorem scenario_negative_count :
    validateUploadResponse
      (.obj [("message", .str "No cases found."), ("casesIndexed", .num (-1))]) =
      .error .InvalidCount := rfl

/-- Scenario of spec §8: `{message:"Indexed 3 new cases.", casesIndexed:3}`
succeeds. -/
theorem scenario_indexed_three :
    validateUploadResponse
      (.obj [("message", .str "Indexed 3 new cases."), ("casesIndexed", .num 3)]) =
      .ok ⟨"Indexed 3 new cases.", 3⟩ := rfl

/-- Scenario: a non-integral count such as `2.5` (the fraction `5/2`)
fails with `InvalidCount`. -/
theorem scenario_fractional_count :
    validateUploadResponse
      (.obj [("message", .str "ok"),
        ("casesIndexed", .num ⟨5, 2, by decide, by decide⟩)]) =
      .error .InvalidCount := rfl

/-! ## Helper lemmas shared by several claims -/

theorem countField_some {input : JsonValue} {q : Rat} (h : countField input = some q) :
    q.den = 1 ∧ 0 ≤ q := by
  unfold countField at h
  split at h
  · rename_i q2 hg
    split at h
    · rename_i hcond
      injection h with h2
      subst h2
      exact hcond
    · exact absurd h (by simp)
  · exact absurd h (by simp)

theorem validateUploadResponse_ok_fields {input : JsonValue} {r : UploadResponse}
    (h : validateUploadResponse input = .ok r) :
    countField input = some r.casesIndexed ∧ messageField input = some r.message := by
  unfold validateUploadResponse at h
  split at h
  · exact absurd h (by simp)
  · rename_i q hq
    split at h
    · exact absurd h (by simp)
    · rename_i m hm
      injection h with h2
      subst h2
      exact ⟨hq, hm⟩

/-! ## Claim theorems -/

/-- C1: every `UploadResponse` produced by the validation layer has a
non-negative, integral `casesIndexed`; the count `0` is a valid,
constructible `UploadResponse`, and a successful result is distinguishable
from every error. -/
theorem uploadResponse_count_nonneg_integral (input : JsonValue) (r : UploadResponse)
    (h : validateUploadResponse input = .ok r) :
    (r.casesIndexed.den = 1 ∧ 0 ≤ r.casesIndexed) ∧
    validateUploadResponse (.obj [("message", .str "ok"), ("casesIndexed", .num 0)]) =
      .ok ⟨"ok", 0⟩ ∧
    ∀ e : ValidationError,
      (Except.ok ⟨"ok", 0⟩ : Except ValidationError UploadResponse) ≠ .error e := by
  refine ⟨countField_some (validateUploadResponse_ok_fields h).1, rfl, fun e h2 => ?_⟩
  exact Except.noConfusion h2

/-- C1 witness: the theorem applied to the upload acknowledgment
`{message := "ok", casesIndexed := 0}` itself. -/
theorem uploadResponse_count_nonneg_integral_witness :
    ((⟨"ok", 0⟩ : UploadResponse).casesIndexed.den = 1 ∧
      0 ≤ (⟨"ok", 0⟩ : UploadResponse).casesIndexed) ∧
    validateUploadResponse (.obj [("message", .str "ok"), ("casesIndexed", .num 0)]) =
      .ok ⟨"ok", 0⟩ ∧
    ∀ e : ValidationError,
      (Except.ok ⟨"ok", 0⟩ : Except ValidationError UploadResponse) ≠ .error e :=
  uploadResponse_count_nonneg_integral
    (.obj [("message", .str "ok"), ("casesIndexed", .num 0)]) ⟨"ok", 0⟩ rfl

/-- C4: the `role` of every `ChatMessage` is exactly one of the three
literals `user`, `bot`, `system`, and the three are pairwise distinct (a
message carries exactly one of them). -/
theorem chatMessage_role_closed (m : ChatMessage) :
    (m.role = .user ∨ m.role = .bot ∨ m.role = .system) ∧
    (Role.user ≠ Role.bot ∧ Role.user ≠ Role.system ∧ Role.bot ≠ Role.system) := by
  refine ⟨?_, by decide, by decide, by decide⟩
  cases h : m.role
  · exact Or.inl rfl
  · exact Or.inr (Or.inl rfl)
  · exact Or.inr (Or.inr rfl)

/-- C5: the `type` of every `ChatMessage` is either absent or exactly one
of `apology`, `rule-answer`, `system`; absence (`none`) is distinct from
every present value. -/
theorem chatMessage_type_closed_or_absent (m : ChatMessage) :
    (m.type = none ∨ m.type = some .apology ∨ m.type = some .ruleAnswer ∨
      m.type = some .system) ∧
    ∀ t : MsgType, (none : Option MsgType) ≠ some t := by
  refine ⟨?_, fun t h => Option.noConfusion h⟩
  rcases h : m.type with _ | t
  · exact Or.inl rfl
  · cases t
    · exact Or.inr (Or.inl rfl)
    · exact Or.inr (Or.inr (Or.inl rfl))
    · exact Or.inr (Or.inr (Or.inr rfl))

/-- C6: every valid `type` literal paired with every valid `role` literal
passes validation — in particular `role = user` with `type = apology` or
`rule-answer` is accepted, not mechanically forbidden. -/
theorem validateChatMessage_accepts_any_role_type (r : Role) (t : MsgType) (c : String) :
    validateChatMessage (.obj [("role", .str (roleToString r)),
      ("content", .str c), ("type", .str (msgTypeToString t))]) =
      .ok ⟨r, c, some t⟩ := by
  cases r <;> cases t <;> rfl

/-- C7: every valid `role` with any content text and no `type` key
validates successfully, with the content unchanged and `type` absent in
the output. -/
theorem validateChatMessage_no_type_ok (r : Role) (c : String) :
    validateChatMessage (.obj [("role", .str (roleToString r)), ("content", .str c)]) =
      .ok ⟨r, c, none⟩ := by
  cases r <;> rfl

/-- C9: the `message` text of an `UploadResponse` is unconstrained — every
string, the empty one included, together with every valid count, yields a
value the validation layer accepts unchanged. -/
theorem uploadResponse_message_unconstrained (m : String) (q : Rat)
    (h1 : q.den = 1) (h2 : 0 ≤ q) :
    validateUploadResponse (.obj [("message", .str m), ("casesIndexed", .num q)]) =
      .ok ⟨m, q⟩ := by
  have hc : countField (.obj [("message", .str m), ("casesIndexed", .num q)]) =
      if q.den = 1 ∧ 0 ≤ q then some q else none := rfl
  rw [if_pos ⟨h1, h2⟩] at hc
  have hm : messageField (.obj [("message", .str m), ("casesIndexed", .num q)]) =
      some m := rfl
  unfold validateUploadResponse
  rw [hc, hm]

/-- C9 witness: the empty message with count `0` is accepted. -/
theorem uploadResponse_message_unconstrained_witness :
    validateUploadResponse (.obj [("message", .str ""), ("casesIndexed", .num 0)]) =
      .ok ⟨"", 0⟩ :=
  uploadResponse_message_unconstrained "" 0 rfl (by decide)

/-- C10: the literal `system` belongs to both the `role` set and the
`type` set, and a message carrying both simultaneously is valid. -/
theorem system_in_both_role_and_type :
    parseRole "system" = some .system ∧ parseMsgType "system" = some .system ∧
    validateChatMessage (.obj [("role", .str "system"), ("content", .str "x"),
      ("type", .str "system")]) = .ok ⟨.system, "x", some .system⟩ :=
  ⟨rfl, rfl, rfl⟩

/-- C8: validation is idempotent — re-validating the serialized form of an
already-valid `ChatMessage`, or of an `UploadResponse` satisfying its
count invariant, succeeds and returns the identical value. -/
theorem validation_idempotent (m : ChatMessage) (u : UploadResponse)
    (h1 : u.casesIndexed.den = 1) (h2 : 0 ≤ u.casesIndexed) :
    validateChatMessage (encodeChatMessage m) = .ok m ∧
    validateUploadResponse (encodeUploadResponse u) = .ok u := by
  constructor
  · rcases m with ⟨r, c, t⟩
    rcases t with _ | t
    · cases r <;> rfl
    · cases r <;> cases t <;> rfl
  · have hc : countField (encodeUploadResponse u) =
        if u.casesIndexed.den = 1 ∧ 0 ≤ u.casesIndexed then some u.casesIndexed
        else none := rfl
    rw [if_pos ⟨h1, h2⟩] at hc
    have hm : messageField (encodeUploadResponse u) = some u.message := rfl
    unfold validateUploadResponse
    rw [hc, hm]

/-- C8 witness: idempotence at the message `{role := user, content :=
"hi"}` and the acknowledgment `{message := "done", casesIndexed := 2}`. -/
theorem validation_idempotent_witness :
    validateChatMessage (encodeChatMessage ⟨.user, "hi", none⟩) =
      .ok ⟨.user, "hi", none⟩ ∧
    validateUploadResponse (encodeUploadResponse ⟨"done", 2⟩) = .ok ⟨"done", 2⟩ :=
  validation_idempotent ⟨.user, "hi", none⟩ ⟨"done", 2⟩ rfl (by decide)

/-- C2 counterexample: the three error biconditionals cannot all hold — on
the empty object both the role condition and the content condition are
met, yet validation reports `InvalidRole`, not `MissingContent`. -/
theorem validateChatMessage_biconditionals_false :
    ¬ (∀ input : JsonValue,
        (validateChatMessage input = .error .InvalidRole ↔ badRole input = true) ∧
        (validateChatMessage input = .error .InvalidType ↔ badType input = true) ∧
        (validateChatMessage input = .error .MissingContent ↔
          badContent input = true) ∧
        (badRole input = false → badType input = false → badContent input = false →
          ∃ c, validateChatMessage input = .ok c)) := by
  intro h
  have h3 : validateChatMessage (.obj []) = .error .MissingContent :=
    ((h (.obj [])).2.2.1).mpr rfl
  have h5 : (Except.error .InvalidRole : Except ValidationError ChatMessage) =
      .error .MissingContent := h3
  injection h5 with h6
  exact ValidationError.noConfusion h6

/-- C2 (amended): the error conditions hold in priority order — `InvalidRole`
exactly when the role is missing or invalid; `InvalidType` exactly when the
role is fine and the type is present but invalid; `MissingContent` exactly
when role and type are fine and the content is absent or not text; success
otherwise. -/
theorem validateChatMessage_error_characterization (input : JsonValue) :
    (validateChatMessage input = .error .InvalidRole ↔ badRole input = true) ∧
    (validateChatMessage input = .error .InvalidType ↔
      (badRole input = false ∧ badType input = true)) ∧
    (validateChatMessage input = .error .MissingContent ↔
      (badRole input = false ∧ badType input = false ∧ badContent input = true)) ∧
    ((badRole input = false ∧ badType input = false ∧ badContent input = false) →
      ∃ c, validateChatMessage input = .ok c) := by
  unfold validateChatMessage badRole badType badContent
  rcases hr : roleField input with _ | r
  · simp [hr]
  · rcases ht : typeField input with _ | t
    · simp [hr, ht]
    · rcases hc : contentField input with _ | c <;> simp [hr, ht, hc]

/-- C2 witness: the amended characterization applied to
`{role := "user", content := "hello"}`, whose three conditions all fail,
yields a successful validation. -/
theorem validateChatMessage_error_characterization_witness :
    ∃ c, validateChatMessage (.obj [("role", .str "user"),
      ("content", .str "hello")]) = .ok c :=
  (validateChatMessage_error_characterization
    (.obj [("role", .str "user"), ("content", .str "hello")])).2.2.2 ⟨rfl, rfl, rfl⟩

/-- C3 counterexample: the two error biconditionals cannot both hold — on
the empty object both the count condition and the message condition are
met, yet validation reports `InvalidCount`, not `MissingMessage`. -/
theorem validateUploadResponse_biconditionals_false :
    ¬ (∀ input : JsonValue,
        (validateUploadResponse input = .error .InvalidCount ↔
          badCount input = true) ∧
        (validateUploadResponse input = .error .MissingMessage ↔
          badMessage input = true) ∧
        (badCount input = false → badMessage input = false →
          ∃ u, validateUploadResponse input = .ok u)) := by
  intro h
  have h3 : validateUploadResponse (.obj []) = .error .MissingMessage :=
    ((h (.obj [])).2.1).mpr rfl
  have h5 : (Except.error .InvalidCount : Except ValidationError UploadResponse) =
      .error .MissingMessage := h3
  injection h5 with h6
  exact ValidationError.noConfusion h6

/-- C3 (amended): the error conditions hold in priority order —
`InvalidCount` exactly when `casesIndexed` is missing, negative or
non-integral; `MissingMessage` exactly when the count is fine and
`message` is absent or not text; success otherwise. -/
theorem validateUploadResponse_error_characterization (input : JsonValue) :
    (validateUploadResponse input = .error .InvalidCount ↔ badCount input = true) ∧
    (validateUploadResponse input = .error .MissingMessage ↔
      (badCount input = false ∧ badMessage input = true)) ∧
    ((badCount input = false ∧ badMessage input = false) →
      ∃ u, validateUploadResponse input = .ok u) := by
  unfold validateUploadResponse badCount badMessage
  rcases hc : countField input with _ | q
  · simp [hc]
  · rcases hm : messageField input with _ | m <;> simp [hc, hm]

/-- C3 witness: the amended characterization applied to the spec's
scenario `{message := "No cases found.", casesIndexed := -1}` yields
`InvalidCount`. -/
theorem validateUploadResponse_error_characterization_witness :
    validateUploadResponse (.obj [("message", .str "No cases found."),
      ("casesIndexed", .num (-1))]) = .error .InvalidCount :=
  (validateUploadResponse_error_characterization
    (.obj [("message", .str "No cases found."), ("casesIndexed", .num (-1))])).1.mpr rfl
